import Mathlib

/-! Verification of the task/queue orchestration core of
`src/M5StickCPlus-ProPresenterRemote.ino`.

The sketch is embedded shallowly: each task's per-message (or per-tick) body
becomes a pure Lean function from its inputs and owned state to its new state
plus the list of messages it enqueues / draw operations it performs.  External
collaborators (FreeRTOS queues, the Wi-Fi stack, the HTTP transport, the JSON
parser and the TFT font metric tables) are out of the repository; they enter
the embedding either as parameters (font metrics, HTTP result codes) or as a
definition modelled from the spec (queue send semantics), exactly as the spec
scopes them ("specified only at their interfaces").
-/

namespace ProPresenterRemote

/-! Part: Constants from the source -/
/-- HTTPClient library success code checked by `pollSlideOnce` (`HTTP_CODE_OK`). -/
def HTTP_CODE_OK : Int := 200

/-- HTTPClient library code checked by the trigger commands (`HTTP_CODE_NO_CONTENT`). -/
def HTTP_CODE_NO_CONTENT : Int := 204

/-- Grey for low-priority text (`#define COL_MUTED 0x8410`). -/
def COL_MUTED : Nat := 0x8410

/-- Green card fill when connected (`#define COL_GOOD 0x04A0`). -/
def COL_GOOD : Nat := 0x04A0

/-- Red card fill when disconnected (`#define COL_BAD 0xE800`). -/
def COL_BAD : Nat := 0xE800

/-- Global inner padding (`PAD = 8`). -/
def PAD : Int := 8

/-! Part: Message types (`CmdType`, `CmdMsg`, `UiType`, `UiMsg`) -/
/-- Command queue message tags: `enum CmdType { CMD_POLL, CMD_NEXT, CMD_PREV,
CMD_NET_UP, CMD_HOME0 }`.  `CmdMsg` carries only the tag, so the tag type is the
whole message. -/
inductive CmdType
  | poll
  | next
  | prev
  | netUp
  | home0
  deriving DecidableEq, Repr

/-- UI queue messages.  `struct UiMsg` is a tag (`UI_STATUS`/`UI_SLIDE`/`UI_WIFI`)
plus the fields used by that tag, so it embeds as a closed tagged variant. -/
inductive UiMsg
  | status (text : String)
  | wifi (text : String)
  | slide (slideIndexOneBased : Int) (presName : String)
  deriving DecidableEq, Repr

/-! Part: Poll model (`pollSlideOnce`)

`httpGET_once` and `JSON.parse` are external transport/parser collaborators.
A poll's input is therefore either a transport failure (`httpGET_once`
returned `false`) or a response with its numeric code and the parse result of
its payload (`none` when `JSON.typeof(obj) == "undefined"`). -/
/-- Parsed shape of the `presentation_index` JSON object: the code reads the
optional `index` field and the optional `presentation_id.name` field
(`idName` is `some` exactly when both `presentation_id` and its `name` exist,
matching the conjunctive `hasOwnProperty` test in the source). -/
structure PresIndexObj where
  index : Option Int
  idName : Option String
  deriving DecidableEq, Repr

/-- Parsed shape of the whole payload: the code only reads the optional
`presentation_index` member. -/
structure PayloadObj where
  presentationIndex : Option PresIndexObj
  deriving DecidableEq, Repr

/-- Outcome of one `httpGET_once` call as seen by `pollSlideOnce`. -/
inductive PollInput
  | transportFail
  | response (code : Int) (payload : Option PayloadObj)
  deriving DecidableEq, Repr

/-- Extraction of `idx1` in `pollSlideOnce`: `-1` unless
`presentation_index.index` exists, in which case the 0-based index plus 1. -/
def idx1Of (p : PayloadObj) : Int :=
  match p.presentationIndex with
  | some pi =>
    match pi.index with
    | some i => i + 1
    | none => -1
  | none => -1

/-- Extraction of `name` in `pollSlideOnce`: `""` unless
`presentation_index.presentation_id.name` exists. -/
def nameOf (p : PayloadObj) : String :=
  match p.presentationIndex with
  | some pi =>
    match pi.idName with
    | some n => n
    | none => ""
  | none => ""

/-- Embeds `pollSlideOnce` (src lines 485–520).  Input: the GET outcome and the
current `gProUnreachable` flag.  Output: the boolean return value, the new
`gProUnreachable` flag, and the UI messages enqueued, in order. -/
def pollSlideOnce (inp : PollInput) (gProUnreachable : Bool) :
    Bool × Bool × List UiMsg :=
  match inp with
  | .transportFail =>
    (false, true, if gProUnreachable then [] else [.status "Pro Unreachable"])
  | .response code payload =>
    if code = HTTP_CODE_OK then
      match payload with
      | none =>
        (false, true, if gProUnreachable then [] else [.status "Pro Unreachable"])
      | some obj =>
        (true, false,
          (if gProUnreachable then [UiMsg.status "Pro Connected"] else []) ++
            [UiMsg.slide (idx1Of obj) (nameOf obj)])
    else
      (false, true, if gProUnreachable then [] else [.status "Pro Unreachable"])

/-- A poll input on which `pollSlideOnce` succeeds: transport OK, code 200, and
a payload that parses (the only conditions the source checks before taking the
success path). -/
def pollOk : PollInput → Bool
  | .transportFail => false
  | .response code payload => decide (code = HTTP_CODE_OK) && payload.isSome

/-- Folding `pollSlideOnce` over a list of poll outcomes: final flag and the
concatenated UI emissions. -/
def runPolls (u : Bool) : List PollInput → Bool × List UiMsg
  | [] => (u, [])
  | i :: rest =>
    let r := pollSlideOnce i u
    let k := runPolls r.2.1 rest
    (k.1, r.2.2 ++ k.2)

/-- Number of `UI_STATUS` messages with exactly the text `s` in a list. -/
def countStatus (s : String) (l : List UiMsg) : Nat :=
  l.countP (fun m =>
    match m with
    | .status t => t == s
    | _ => false)

/-! Part: Render worker (`uiTask`, `gMarq`, `drawTitleMarqueeTick`)

Time values are `uint32_t` milliseconds from `millis()`; elapsed time is the
wrapping 32-bit difference the C code computes. -/
/-- Modulus of `uint32_t` arithmetic. -/
def U32 : Nat := 4294967296

/-- Wrapping 32-bit difference `now - last` as computed on `uint32_t`
(operands assumed reduced mod `2^32`). -/
def u32elapsed (now last : Nat) : Nat := (now + U32 - last) % U32

/-- Leading-segment test on character lists (helper for the `strstr`
embedding). -/
def leadsList : List Char → List Char → Bool
  | [], _ => true
  | _ :: _, [] => false
  | a :: as, b :: bs => a == b && leadsList as bs

/-- Substring test matching C `strstr(hay, pat) != NULL`. -/
def containsSub (hay pat : String) : Bool :=
  hay.toList.tails.any (fun t => leadsList pat.toList t)

/-- Marquee state `struct Marquee` / global `gMarq`. -/
structure Marquee where
  text : String
  x : Int
  w : Int
  needed : Bool
  lastTick : Nat
  pauseStart : Nat
  inPause : Bool
  deriving DecidableEq, Repr

/-- Default-constructed `Marquee{}` (field initializers in the struct). -/
def initMarquee : Marquee :=
  { text := "", x := 0, w := 0, needed := false, lastTick := 0,
    pauseStart := 0, inPause := false }

/-- Marquee pixel step (`stepPx = 2`). -/
def marqueeStepPx : Int := 2

/-- Marquee movement period (`tickMs = 75`). -/
def marqueeTickMs : Nat := 75

/-- Gap between the two drawn copies (`spacer = 24`). -/
def marqueeSpacer : Int := 24

/-- Fixed pause duration at the start and after each wrap (500 ms). -/
def marqueePauseMs : Nat := 500

/-- State transition of `drawTitleMarqueeTick` (src lines 304–369): drawing
aside, the function mutates `gMarq` as follows for a call at time `now`. -/
def marqueeTick (m : Marquee) (now : Nat) : Marquee :=
  if m.needed = false then m
  else if m.inPause then
    if marqueePauseMs ≤ u32elapsed now m.pauseStart then
      { m with inPause := false, lastTick := now, x := 0 }
    else m
  else if marqueeTickMs ≤ u32elapsed now m.lastTick then
    let x' := m.x - marqueeStepPx
    if x' < -(m.w + marqueeSpacer) then
      { m with lastTick := now, x := 0, inPause := true, pauseStart := now }
    else
      { m with lastTick := now, x := x' }
  else m

/-- Cached last-drawn UI state of `uiTask` (the `static` locals plus `gMarq`,
all owned by the render worker). -/
structure RenderState where
  lastSlide : Int
  lastTitle : String
  lastStatus : String
  wifiConnected : Bool
  lastReachable : Bool
  marq : Marquee
  deriving DecidableEq, Repr

/-- Initial cached state of `uiTask` (`lastSlide = -9999`, empty strings,
both booleans false, default marquee). -/
def initRenderState : RenderState :=
  { lastSlide := -9999, lastTitle := "", lastStatus := "",
    wifiConnected := false, lastReachable := false, marq := initMarquee }

/-- Display operations `uiTask` performs on the panel, one per region blit. -/
inductive DrawAction
  | statusBar (text : String) (fg : Nat)
  | card (idx : Int) (panel : Nat)
  | titleTick
  deriving DecidableEq, Repr

/-- True for slide-card blits. -/
def isCardAct : DrawAction → Bool
  | .card _ _ => true
  | _ => false

/-- True for status-region blits. -/
def isStatusAct : DrawAction → Bool
  | .statusBar _ _ => true
  | _ => false

/-- Status foreground color choice in `uiTask` (src lines 404–411): positive
markers first, then negative markers, else muted. -/
def pickStatusColor (t : String) : Nat :=
  if containsSub t "OK" || containsSub t "Connected" || containsSub t "NEXT" ||
      containsSub t "PREV" || containsSub t "HOME" || containsSub t "Wi-Fi" then
    COL_GOOD
  else if containsSub t "Unreachable" || containsSub t "Request Failed" then
    COL_BAD
  else COL_MUTED

/-- Wi-Fi-connected flag update on a `UI_WIFI` message (src line 399):
`wifiConnected = (strstr(msg.text, "OK") || strstr(msg.text, "Connected"))`. -/
def wifiFlagFrom (t : String) : Bool :=
  containsSub t "OK" || containsSub t "Connected"

/-- The `UI_STATUS`/`UI_WIFI` branch of `uiTask` (src lines 395–425).
`g` is the value of the shared `gProUnreachable` flag the task reads directly.
Returns the updated cached state and the blits performed, in order. -/
def uiStatusStep (g : Bool) (st : RenderState) (t : String) (isWifi : Bool) :
    RenderState × List DrawAction :=
  let wifi' := if isWifi then wifiFlagFrom t else st.wifiConnected
  let fg := pickStatusColor t
  let lastStatus' := if st.lastStatus = t then st.lastStatus else t
  let statusActs : List DrawAction :=
    if st.lastStatus = t then [] else [DrawAction.statusBar t fg]
  let reachable := wifi' && !g
  let lastReachable' :=
    if reachable = st.lastReachable then st.lastReachable else reachable
  let cardActs : List DrawAction :=
    if reachable = st.lastReachable then []
    else [DrawAction.card st.lastSlide (if reachable then COL_GOOD else COL_BAD)]
  ({ st with
      wifiConnected := wifi', lastStatus := lastStatus',
      lastReachable := lastReachable' },
    statusActs ++ cardActs)

/-- The `UI_SLIDE` branch of `uiTask` (src lines 427–448).  `textW` is the
external font-4 `textWidth` metric, `lcdW` the panel width, `now` the
`millis()` reading during marquee re-initialization. -/
def uiSlideStep (g : Bool) (textW : String → Int) (lcdW : Int) (now : Nat)
    (st : RenderState) (idx : Int) (nm : String) :
    RenderState × List DrawAction :=
  let reachable := st.wifiConnected && !g
  let lastSlide' := if idx = st.lastSlide then st.lastSlide else idx
  let cardActs : List DrawAction :=
    if idx = st.lastSlide then []
    else [DrawAction.card idx (if reachable then COL_GOOD else COL_BAD)]
  if st.lastTitle = nm then
    ({ st with lastSlide := lastSlide' }, cardActs)
  else
    let w := textW nm
    let maxW := lcdW - 2 * PAD
    let needed := decide (maxW < w)
    let m : Marquee :=
      { text := nm, x := 0, w := w, needed := needed, lastTick := now,
        pauseStart := if needed then now else 0, inPause := needed }
    ({ st with
        lastSlide := lastSlide', lastTitle := nm,
        marq := marqueeTick m now },
      cardActs ++ [DrawAction.titleTick])

/-- One received UI message processed by `uiTask`'s queue-receive branch. -/
def uiStep (g : Bool) (textW : String → Int) (lcdW : Int) (now : Nat)
    (st : RenderState) (msg : UiMsg) : RenderState × List DrawAction :=
  match msg with
  | .status t => uiStatusStep g st t false
  | .wifi t => uiStatusStep g st t true
  | .slide idx nm => uiSlideStep g textW lcdW now st idx nm

/-- Witness marquee state for the scroll-phase theorem. -/
def marqueeScrollW : Marquee :=
  { text := "T", x := 0, w := 100, needed := true, lastTick := 0,
    pauseStart := 0, inPause := false }

/-- Witness cached state: last-drawn status "A", last-drawn slide 3. -/
def dupStateW : RenderState :=
  { initRenderState with lastStatus := "A", lastSlide := 3 }

/-- The slide-card blits `uiTask` performs for a message, written as a function
of the received message, the cached state AND the directly-read shared flag
`g` — the amended form of the ownership claim. -/
def expectedCardActs (g : Bool) (st : RenderState) (msg : UiMsg) :
    List DrawAction :=
  match msg with
  | .status _ =>
    if (st.wifiConnected && !g) = st.lastReachable then []
    else
      [DrawAction.card st.lastSlide
        (if st.wifiConnected && !g then COL_GOOD else COL_BAD)]
  | .wifi t =>
    if (wifiFlagFrom t && !g) = st.lastReachable then []
    else
      [DrawAction.card st.lastSlide
        (if wifiFlagFrom t && !g then COL_GOOD else COL_BAD)]
  | .slide idx _ =>
    if idx = st.lastSlide then []
    else
      [DrawAction.card idx
        (if st.wifiConnected && !g then COL_GOOD else COL_BAD)]

/-! Part: Slide-card auto-fit font selection (`drawSlideCard`, src lines 238–300)

The per-font text metrics (`textWidth`, `fontHeight`) live in the display
library, outside this repository; the selection logic is embedded
parametrically in them.  The fallback's float computation
`floorf(min(maxW/baseW, maxH/baseH))` coincides with exact integer division
for the small pixel ranges involved (`floor(min(a,b)) = min(floor a, floor b)`
and the float quotients of panel-sized integers round well within `1/baseW`
of the exact value). -/
/-- External font metric interface of the sprite: `textWidth(buf)` under
`setTextFont(f)`, and `fontHeight()` under `setTextFont(f)`. -/
structure FontMetrics where
  width : Nat → String → Nat
  height : Nat → Nat

/-- Text drawn on the card: the decimal index when positive (truncated to the
7 characters that fit `char buf[8]` under `snprintf`), else the `"--"`
placeholder. -/
def cardBuf (idx1 : Int) : String :=
  if 0 < idx1 then (toString idx1).take 7 else "--"

/-- The `fits` lambda in `drawSlideCard`: measured width and height both
within the inner padding box. -/
def fitsFont (fm : FontMetrics) (buf : String) (maxW maxH : Nat) (f : Nat) :
    Bool :=
  decide (fm.width f buf ≤ maxW) && decide (fm.height f ≤ maxH)

/-- The candidate loop over fonts `{8, 6, 4, 2}` with fast exit on first fit;
`0` when none fits. -/
def chooseCardFont (fm : FontMetrics) (buf : String) (maxW maxH : Nat) : Nat :=
  if fitsFont fm buf maxW maxH 8 then 8
  else if fitsFont fm buf maxW maxH 6 then 6
  else if fitsFont fm buf maxW maxH 4 then 4
  else if fitsFont fm buf maxW maxH 2 then 2
  else 0

/-- Final font configuration of the card text: a bitmap font at default scale
(the `chosenFont > 0` branches, including font 2), or font 2 at an integer
`setTextSize` scale (the fallback branch). -/
inductive CardFontSel
  | bitmapFont (f : Nat)
  | scaledFont2 (scale : Nat)
  deriving DecidableEq, Repr

/-- The selection logic of `drawSlideCard`: first fitting candidate font, else
font 2 scaled by `floorf(min(maxW/baseW, maxH/baseH))` clamped up to 1. -/
def selectCardFont (fm : FontMetrics) (buf : String) (maxW maxH : Nat) :
    CardFontSel :=
  let c := chooseCardFont fm buf maxW maxH
  if 0 < c then CardFontSel.bitmapFont c
  else
    let baseW := fm.width 2 buf
    let baseH := fm.height 2
    let sxFloor := if 0 < baseW then maxW / baseW else 1
    let syFloor := if 0 < baseH then maxH / baseH else 1
    CardFontSel.scaledFont2 (max (min sxFloor syFloor) 1)

/-- Width of the drawn digits under a selection (`setTextSize` scales the base
metric linearly). -/
def drawnWidth (fm : FontMetrics) (buf : String) : CardFontSel → Nat
  | .bitmapFont f => fm.width f buf
  | .scaledFont2 s => s * fm.width 2 buf

/-- Height of the drawn digits under a selection. -/
def drawnHeight (fm : FontMetrics) : CardFontSel → Nat
  | .bitmapFont f => fm.height f
  | .scaledFont2 s => s * fm.height 2

/-- Hypothetical metric instance under which every candidate font fits a
100 × 100 inner box. -/
def fmFits : FontMetrics := { width := fun _ _ => 10, height := fun _ => 10 }

/-- Hypothetical metric instance exhibiting the fallback branch: every font,
including font 2, measures 200 px wide and 200 px high. -/
def fmClip : FontMetrics := { width := fun _ _ => 200, height := fun _ => 200 }

/-! Part: Command queue and network worker command handling
(`loop`, `enqueue*`, `ensureWiFi`, `httpTask`, src lines 171–197 and 524–593)
-/
/-- Command queue capacity (`xQueueCreate(16, sizeof(CmdMsg))`). -/
def cmdQueueCapacity : Nat := 16

/-- Modelled from the spec: the FreeRTOS `xQueueSend` kernel primitive is
outside the repository; per the spec the queue is bounded and "a full queue
drops the newest enqueue rather than blocking the producer".  Result: the new
queue contents, the accepted/dropped flag, and the ticks spent blocked (at
most `ticksToWait`; every producer site in `loop()`/`setup()` passes 0, so the
call returns immediately). -/
def xQueueSendModel (cap : Nat) (q : List CmdType) (m : CmdType)
    (ticksToWait : Nat) : List CmdType × Bool × Nat :=
  if q.length < cap then (q ++ [m], true, 0) else (q, false, ticksToWait)

/-- An Input-Sampler enqueue: every `xQueueSend(cmdQ, &c, 0)` in `loop()` uses
the zero timeout. -/
def inputSamplerEnqueue (q : List CmdType) (m : CmdType) :
    List CmdType × Bool × Nat :=
  xQueueSendModel cmdQueueCapacity q m 0

/-- Outcome of one `ensureWiFi()` call: already connected (immediate true, no
messages); an attempt that connects within the ~1 s loop ("Wi-Fi…" then
"Wi-Fi OK"); an attempt that does not ("Wi-Fi…" then "No Wi-Fi", false); or a
rate-limited skip (false, no messages). -/
inductive WifiOutcome
  | alreadyConnected
  | connectedAfterAttempt
  | failedAttempt
  | rateLimited
  deriving DecidableEq, Repr

/-- Return value and UI emissions of `ensureWiFi` (src lines 179–197). -/
def ensureWiFiModel : WifiOutcome → Bool × List UiMsg
  | .alreadyConnected => (true, [])
  | .connectedAfterAttempt => (true, [.wifi "Wi-Fi…", .wifi "Wi-Fi OK"])
  | .failedAttempt => (false, [.wifi "Wi-Fi…", .wifi "No Wi-Fi"])
  | .rateLimited => (false, [])

/-- Environment for one command handled by `httpTask`: the `ensureWiFi`
outcome, the `httpGET_once` code for a trigger request (`≤ 0` covers
transport failure including the `-1000` begin-failure), and the poll outcomes
for the first attempt and the single retry of `CMD_POLL`. -/
structure CmdEnv where
  wifi : WifiOutcome
  code : Int
  poll1 : PollInput
  poll2 : PollInput
  deriving DecidableEq, Repr

/-- Effect of handling one command in `httpTask`: new `gProUnreachable`, new
`nextForcedPoll` schedule (0 = none), number of HTTP requests issued, and the
UI messages enqueued in order. -/
structure CmdResult where
  unreach : Bool
  forced : Nat
  requests : Nat
  emits : List UiMsg
  deriving DecidableEq, Repr

/-- Post-trigger forced-poll delay (`kAfterTriggerDelay = pdMS_TO_TICKS(150)`
at the 1000 Hz ESP32 Arduino tick rate). -/
def kAfterTriggerDelay : Nat := 150

/-- Initial feedback text per trigger command (`"NEXT…"` etc.). -/
def triggerPre : CmdType → String
  | .next => "NEXT…"
  | .prev => "PREV…"
  | .home0 => "HOME…"
  | _ => ""

/-- Success text per trigger command (`"NEXT OK"` etc.). -/
def triggerOkMsg : CmdType → String
  | .next => "NEXT OK"
  | .prev => "PREV OK"
  | .home0 => "HOME OK"
  | _ => ""

/-- Common body of the `CMD_NEXT`/`CMD_PREV`/`CMD_HOME0` switch cases
(src lines 534–563): emit feedback, ensure Wi-Fi, and if linked issue one GET;
`httpGET_once(...) && code == HTTP_CODE_NO_CONTENT` schedules the forced poll
and emits the OK text, anything else emits `"Request Failed <code>"`
(via `enqueueStatusCode`).  `gProUnreachable` is never touched here. -/
def handleTriggerCmd (preMsg okMsg : String) (env : CmdEnv) (unreach : Bool)
    (forced now : Nat) : CmdResult :=
  let w := ensureWiFiModel env.wifi
  let head := UiMsg.status preMsg :: w.2
  if w.1 then
    if decide (0 < env.code) && decide (env.code = HTTP_CODE_NO_CONTENT) then
      { unreach := unreach, forced := now + kAfterTriggerDelay, requests := 1,
        emits := head ++ [UiMsg.status okMsg] }
    else
      { unreach := unreach, forced := forced, requests := 1,
        emits := head ++
          [UiMsg.status ("Request Failed " ++ toString env.code)] }
  else
    { unreach := unreach, forced := forced, requests := 0, emits := head }

/-- The command-drain switch of `httpTask` for one received command. -/
def handleCmd (c : CmdType) (env : CmdEnv) (unreach : Bool)
    (forced now : Nat) : CmdResult :=
  match c with
  | .next =>
    handleTriggerCmd (triggerPre .next) (triggerOkMsg .next) env unreach
      forced now
  | .prev =>
    handleTriggerCmd (triggerPre .prev) (triggerOkMsg .prev) env unreach
      forced now
  | .home0 =>
    handleTriggerCmd (triggerPre .home0) (triggerOkMsg .home0) env unreach
      forced now
  | .netUp =>
    { unreach := unreach, forced := forced, requests := 0,
      emits := (ensureWiFiModel env.wifi).2 }
  | .poll =>
    let w := ensureWiFiModel env.wifi
    if w.1 then
      let r1 := pollSlideOnce env.poll1 unreach
      if r1.1 then
        { unreach := r1.2.1, forced := forced, requests := 1,
          emits := w.2 ++ r1.2.2 }
      else
        let r2 := pollSlideOnce env.poll2 r1.2.1
        { unreach := r2.2.1, forced := forced, requests := 2,
          emits := w.2 ++ r1.2.2 ++ r2.2.2 }
    else
      { unreach := unreach, forced := forced, requests := 0, emits := w.2 }

/-- Number of status messages whose text contains "Request Failed". -/
def countRequestFailed (l : List UiMsg) : Nat :=
  l.countP (fun m =>
    match m with
    | .status t => containsSub t "Request Failed"
    | _ => false)

/-- Environment of the C9 counterexample: the Wi-Fi link attempt fails. -/
def cexEnv : CmdEnv :=
  { wifi := .failedAttempt, code := 0, poll1 := .transportFail,
    poll2 := .transportFail }

/-! Part: Theorems -/

/-- Sanity: the return value of `pollSlideOnce` is `pollOk` of its input,
independent of the prior flag. -/
theorem pollSlideOnce_fst (inp : PollInput) (u : Bool) :
    (pollSlideOnce inp u).1 = pollOk inp := by
  cases inp with
  | transportFail => simp [pollSlideOnce, pollOk]
  | response code payload =>
    by_cases h : code = HTTP_CODE_OK
    · cases payload <;> simp [pollSlideOnce, pollOk, h]
    · cases payload <;> simp [pollSlideOnce, pollOk, h]

theorem countStatus_nil (s : String) : countStatus s [] = 0 := rfl

theorem countStatus_append (s : String) (l₁ l₂ : List UiMsg) :
    countStatus s (l₁ ++ l₂) = countStatus s l₁ + countStatus s l₂ :=
  List.countP_append _ _ _

/-- A failing poll always leaves the flag set. -/
theorem pollFail_sets_flag (i : PollInput) (u : Bool) (h : pollOk i = false) :
    (pollSlideOnce i u).2.1 = true := by
  cases i with
  | transportFail => simp [pollSlideOnce]
  | response code payload =>
    by_cases hc : code = HTTP_CODE_OK
    · cases payload with
      | none => simp [pollSlideOnce, hc]
      | some p => simp [pollOk, hc] at h
    · cases payload <;> simp [pollSlideOnce, hc]

/-- A failing poll emits the banner exactly when the flag was clear. -/
theorem pollFail_emits (i : PollInput) (u : Bool) (h : pollOk i = false) :
    (pollSlideOnce i u).2.2 =
      if u then [] else [UiMsg.status "Pro Unreachable"] := by
  cases i with
  | transportFail => simp [pollSlideOnce]
  | response code payload =>
    by_cases hc : code = HTTP_CODE_OK
    · cases payload with
      | none => simp [pollSlideOnce, hc]
      | some p => simp [pollOk, hc] at h
    · cases payload <;> simp [pollSlideOnce, hc]

/-- A successful poll clears the flag and emits the "Pro Connected" banner
exactly when the flag was set, followed by the slide update. -/
theorem pollOk_result (i : PollInput) (u : Bool) (h : pollOk i = true) :
    (pollSlideOnce i u).2.1 = false ∧
    ∃ idx nm,
      (pollSlideOnce i u).2.2 =
        (if u then [UiMsg.status "Pro Connected"] else []) ++
          [UiMsg.slide idx nm] := by
  cases i with
  | transportFail => simp [pollOk] at h
  | response code payload =>
    by_cases hc : code = HTTP_CODE_OK
    · cases payload with
      | none => simp [pollOk, hc] at h
      | some p =>
        refine ⟨by simp [pollSlideOnce, hc], idx1Of p, nameOf p, ?_⟩
        simp [pollSlideOnce, hc]
    · simp [pollOk, hc] at h

/-- With the flag already set, a run of failing polls emits no further
"Pro Unreachable" banner. -/
theorem count_unreach_flag_set (l : List PollInput)
    (h : l.all (fun i => pollOk i = false) = true) :
    countStatus "Pro Unreachable" (runPolls true l).2 = 0 := by
  induction l with
  | nil => rfl
  | cons i rest ih =>
    rw [List.all_cons, Bool.and_eq_true] at h
    have h1 : pollOk i = false := of_decide_eq_true h.1
    have hflag := pollFail_sets_flag i true h1
    have hemit := pollFail_emits i true h1
    have ih' := ih h.2
    simp only [runPolls, hflag]
    rw [countStatus_append, hemit, ih']
    simp [countStatus]

/-- With the flag already clear, a run of successful polls emits no further
"Pro Connected" banner. -/
theorem count_connected_flag_clear (l : List PollInput)
    (h : l.all (fun i => pollOk i = true) = true) :
    countStatus "Pro Connected" (runPolls false l).2 = 0 := by
  induction l with
  | nil => rfl
  | cons i rest ih =>
    rw [List.all_cons, Bool.and_eq_true] at h
    have h1 : pollOk i = true := of_decide_eq_true h.1
    obtain ⟨hflag, idx, nm, hemit⟩ := pollOk_result i false h1
    have ih' := ih h.2
    simp only [runPolls, hflag]
    rw [countStatus_append, hemit, ih']
    simp [countStatus, List.countP_cons, List.countP_nil]

/-- C2: across any contiguous run of poll failures the "Pro Unreachable"
status is enqueued at most once, and across any contiguous run of poll
successes the "Pro Connected" status is enqueued at most once, from any
reachability-flag state the surrounding sequence left behind (the flag gates
each emission). -/
theorem unreachable_banner_once_per_run (l : List PollInput) (u : Bool) :
    (l.all (fun i => pollOk i = false) = true →
      countStatus "Pro Unreachable" (runPolls u l).2 ≤ 1) ∧
    (l.all (fun i => pollOk i = true) = true →
      countStatus "Pro Connected" (runPolls u l).2 ≤ 1) := by
  constructor
  · intro h
    cases u with
    | true => simp [count_unreach_flag_set l h]
    | false =>
      cases l with
      | nil => simp [runPolls, countStatus_nil]
      | cons i rest =>
        rw [List.all_cons, Bool.and_eq_true] at h
        have h1 : pollOk i = false := of_decide_eq_true h.1
        have hflag := pollFail_sets_flag i false h1
        have hemit := pollFail_emits i false h1
        have hrest := count_unreach_flag_set rest h.2
        simp only [runPolls, hflag]
        rw [countStatus_append, hemit, hrest]
        decide
  · intro h
    cases u with
    | false => simp [count_connected_flag_clear l h]
    | true =>
      cases l with
      | nil => simp [runPolls, countStatus_nil]
      | cons i rest =>
        rw [List.all_cons, Bool.and_eq_true] at h
        have h1 : pollOk i = true := of_decide_eq_true h.1
        obtain ⟨hflag, idx, nm, hemit⟩ := pollOk_result i true h1
        have hrest := count_connected_flag_clear rest h.2
        simp only [runPolls, hflag]
        rw [countStatus_append, hemit, hrest]
        simp [countStatus, List.countP_cons, List.countP_nil]

/-- Witness for C2, the spec's scenario: two consecutive transport failures
from the reachable state yield exactly one "Pro Unreachable" banner. -/
theorem unreachable_banner_once_per_run_witness :
    countStatus "Pro Unreachable"
        (runPolls false [PollInput.transportFail, PollInput.transportFail]).2 = 1 ∧
    countStatus "Pro Unreachable"
        (runPolls false [PollInput.transportFail, PollInput.transportFail]).2 ≤ 1 :=
  ⟨by decide,
    (unreachable_banner_once_per_run
      [PollInput.transportFail, PollInput.transportFail] false).1 (by decide)⟩

/-- C1 counterexample: a success-status response whose payload parses but has
neither the numeric index field nor the presentation-name field is NOT treated
as malformed: `pollSlideOnce` returns success, leaves the flag clear (the
Reachable transition, not the Unreachable one), and emits a SlideUpdate with
index `-1` and empty title. -/
theorem poll_missing_fields_cex :
    (pollSlideOnce (PollInput.response 200 (some { presentationIndex := none }))
        false).1 = true ∧
    (pollSlideOnce (PollInput.response 200 (some { presentationIndex := none }))
        false).2.1 = false ∧
    (pollSlideOnce (PollInput.response 200 (some { presentationIndex := none }))
        false).2.2 = [UiMsg.slide (-1) ""] := by
  refine ⟨?_, ?_, ?_⟩ <;> rfl

/-- C1 amended: only a payload that fails to parse is treated as malformed
(failure, Unreachable transition, no SlideUpdate); a success-status response
whose payload parses is treated as a success even when the index or name
fields are absent: the Reachable transition applies and a SlideUpdate is
emitted with index `-1` / empty title standing in for the missing fields. -/
theorem poll_malformed_amended (u : Bool) (p : PayloadObj) :
    pollSlideOnce (PollInput.response 200 none) u =
      (false, true, if u then [] else [UiMsg.status "Pro Unreachable"]) ∧
    pollSlideOnce (PollInput.response 200 (some p)) u =
      (true, false,
        (if u then [UiMsg.status "Pro Connected"] else []) ++
          [UiMsg.slide (idx1Of p) (nameOf p)]) := by
  constructor <;> simp [pollSlideOnce, HTTP_CODE_OK]

/-- C6: a successful well-formed poll performed while unreachable enqueues
"Pro Connected" first and then a SlideUpdate carrying the 0-based index plus 1
and the presentation name, and clears the unreachable flag. -/
theorem poll_recovery_emits_connected_then_slide (i : Int) (n : String) :
    pollSlideOnce
        (PollInput.response 200
          (some (PayloadObj.mk (some (PresIndexObj.mk (some i) (some n))))))
        true =
      (true, false, [UiMsg.status "Pro Connected", UiMsg.slide (i + 1) n]) := by
  simp [pollSlideOnce, HTTP_CODE_OK, idx1Of, nameOf]

/-- C5: in the scroll phase, each elapsed tick moves the offset down by exactly
the fixed step (so it strictly decreases) while the decremented offset is
still at least `-(W + S)`; as soon as the decremented offset is less than
`-(W + S)` it is reset to exactly 0 and the pause phase re-activates, stamped
at the current time. -/
theorem marquee_scroll_wrap (m : Marquee) (now : Nat)
    (hn : m.needed = true) (hp : m.inPause = false)
    (ht : marqueeTickMs ≤ u32elapsed now m.lastTick) :
    (-(m.w + marqueeSpacer) ≤ m.x - marqueeStepPx →
      (marqueeTick m now).x = m.x - marqueeStepPx ∧
      (marqueeTick m now).x < m.x ∧
      (marqueeTick m now).inPause = false) ∧
    (m.x - marqueeStepPx < -(m.w + marqueeSpacer) →
      (marqueeTick m now).x = 0 ∧
      (marqueeTick m now).inPause = true ∧
      (marqueeTick m now).pauseStart = now) := by
  constructor
  · intro hge
    have hstep : m.x - marqueeStepPx < m.x := by
      unfold marqueeStepPx
      omega
    have hc : ¬(m.x - marqueeStepPx + m.w < -marqueeSpacer) := by
      simp only [marqueeStepPx, marqueeSpacer] at hge ⊢
      omega
    refine ⟨?_, ?_, ?_⟩ <;> simp [marqueeTick, hn, hp, ht, hc, hstep]
  · intro hlt
    have hc : m.x - marqueeStepPx + m.w < -marqueeSpacer := by
      simp only [marqueeStepPx, marqueeSpacer] at hlt ⊢
      omega
    refine ⟨?_, ?_, ?_⟩ <;> simp [marqueeTick, hn, hp, ht, hc]

/-- Witness for C5: a 100-px-wide title in scroll phase, 100 ms after the last
movement, advances from offset 0 to offset −2 and stays in scroll phase. -/
theorem marquee_scroll_wrap_witness :
    (marqueeTick marqueeScrollW 100).x = marqueeScrollW.x - marqueeStepPx ∧
    (marqueeTick marqueeScrollW 100).x < marqueeScrollW.x ∧
    (marqueeTick marqueeScrollW 100).inPause = false :=
  (marquee_scroll_wrap marqueeScrollW 100 rfl rfl (by decide)).1 (by decide)

/-- C7: processing a StatusText whose text equals the cached last-drawn status
text performs no status-region blit, and processing a SlideUpdate whose index
equals the cached last-drawn index performs no slide-card blit from that
branch. -/
theorem duplicate_message_no_redraw (g : Bool) (textW : String → Int)
    (lcdW : Int) (now : Nat) (st : RenderState) (t nm : String) (idx : Int)
    (hs : st.lastStatus = t) (hi : st.lastSlide = idx) :
    ((uiStep g textW lcdW now st (.status t)).2).filter isStatusAct = [] ∧
    ((uiStep g textW lcdW now st (.slide idx nm)).2).filter isCardAct = [] := by
  constructor
  · simp only [uiStep, uiStatusStep, if_pos hs]
    by_cases hr : (st.wifiConnected && !g) = st.lastReachable
    · simp [hr]
    · simp [hr, isStatusAct]
  · simp only [uiStep, uiSlideStep, if_pos hi.symm]
    by_cases hT : st.lastTitle = nm
    · simp [hT]
    · simp [hT, isCardAct]

/-- Witness for C7: with status "A" and slide 3 cached, a duplicate "A" status
message performs no status blit and a duplicate slide-3 update performs no
card blit. -/
theorem duplicate_message_no_redraw_witness :
    ((uiStep false (fun _ => 0) 135 0 dupStateW (.status "A")).2).filter
        isStatusAct = [] ∧
    ((uiStep false (fun _ => 0) 135 0 dupStateW (.slide 3 "T")).2).filter
        isCardAct = [] :=
  duplicate_message_no_redraw false (fun _ => 0) 135 0 dupStateW "A" "T" 3
    rfl rfl

/-- C4 counterexample: two runs of the render worker that receive the same
single UI message ("Wi-Fi OK") but observe different values of the shared
`gProUnreachable` flag paint different things: with the flag clear the card is
repainted green, with the flag set no card blit happens at all.  The render
worker therefore does not compute its output from the received messages
alone — it reads the network worker's flag directly. -/
theorem card_color_shared_flag_cex :
    (uiStep false (fun _ => 0) 135 0 initRenderState (.wifi "Wi-Fi OK")).2 ≠
      (uiStep true (fun _ => 0) 135 0 initRenderState (.wifi "Wi-Fi OK")).2 := by
  decide

/-- C4 amended: the render worker reads the shared `gProUnreachable` flag
directly (not via a message), so the card blits it performs are a function of
the received message, its cached state, and the flag value `g` — including
`g`, as the right-hand side shows explicitly. -/
theorem card_color_depends_on_shared_flag (g : Bool) (textW : String → Int)
    (lcdW : Int) (now : Nat) (st : RenderState) (msg : UiMsg) :
    ((uiStep g textW lcdW now st msg).2).filter isCardAct =
      expectedCardActs g st msg := by
  cases msg with
  | status t =>
    simp only [uiStep, uiStatusStep, expectedCardActs]
    by_cases hs : st.lastStatus = t <;>
      by_cases hr : (st.wifiConnected && !g) = st.lastReachable <;>
        simp [hs, hr, isCardAct, isStatusAct]
  | wifi t =>
    simp only [uiStep, uiStatusStep, expectedCardActs]
    by_cases hs : st.lastStatus = t <;>
      by_cases hr : (wifiFlagFrom t && !g) = st.lastReachable <;>
        simp [hs, hr, isCardAct, isStatusAct]
  | slide idx nm =>
    simp only [uiStep, uiSlideStep, expectedCardActs]
    by_cases hi : idx = st.lastSlide <;>
      by_cases hT : st.lastTitle = nm <;>
        simp [hi, hT, isCardAct]

/-- C10: the positive substring markers are checked before the negative ones,
so any status or Wi-Fi text containing "Wi-Fi" — including the disconnect
announcement "No Wi-Fi" — is drawn in the good color; and a WifiState message
sets the cached Wi-Fi-connected flag exactly when its text contains "OK" or
"Connected". -/
theorem status_color_markers :
    (∀ s : String, containsSub s "Wi-Fi" = true → pickStatusColor s = COL_GOOD) ∧
    pickStatusColor "No Wi-Fi" = COL_GOOD ∧
    (∀ (g : Bool) (st : RenderState) (s : String),
      ((uiStatusStep g st s true).1).wifiConnected =
        (containsSub s "OK" || containsSub s "Connected")) := by
  refine ⟨?_, by decide, ?_⟩
  · intro s h
    simp [pickStatusColor, h]
  · intro g st s
    simp [uiStatusStep, wifiFlagFrom]

/-- Witness for C10: the disconnect announcement "No Wi-Fi" is drawn in the
good (green) color. -/
theorem status_color_markers_witness :
    pickStatusColor "No Wi-Fi" = COL_GOOD :=
  status_color_markers.1 "No Wi-Fi" (by decide)

theorem fitsFont_spec (fm : FontMetrics) (buf : String) (maxW maxH f : Nat)
    (h : fitsFont fm buf maxW maxH f = true) :
    fm.width f buf ≤ maxW ∧ fm.height f ≤ maxH := by
  simpa [fitsFont] using h

/-- Scaling font 2 by any factor `≥ 1` cannot make it fit if it did not
already fit unscaled. -/
theorem scaled_not_fit (fm : FontMetrics) (buf : String) (maxW maxH s : Nat)
    (hs : 1 ≤ s) (h2 : fitsFont fm buf maxW maxH 2 = false) :
    ¬(s * fm.width 2 buf ≤ maxW ∧ s * fm.height 2 ≤ maxH) := by
  rintro ⟨hw, hh⟩
  have hw2 : fm.width 2 buf ≤ maxW :=
    le_trans (Nat.le_mul_of_pos_left _ (by omega)) hw
  have hh2 : fm.height 2 ≤ maxH :=
    le_trans (Nat.le_mul_of_pos_left _ (by omega)) hh
  simp [fitsFont, hw2, hh2] at h2

/-- C3 amended: whenever some candidate font fits, the selected configuration
fits the card's inner box; but when no candidate fits, the fallback clamps the
integer scale up to 1, and since font 2 itself did not fit, the drawn digits
necessarily exceed the inner box — the fallback branch guarantees no fit. -/
theorem card_font_fit_amended (fm : FontMetrics) (buf : String)
    (maxW maxH : Nat) :
    (0 < chooseCardFont fm buf maxW maxH →
      drawnWidth fm buf (selectCardFont fm buf maxW maxH) ≤ maxW ∧
      drawnHeight fm (selectCardFont fm buf maxW maxH) ≤ maxH) ∧
    (chooseCardFont fm buf maxW maxH = 0 →
      ¬(drawnWidth fm buf (selectCardFont fm buf maxW maxH) ≤ maxW ∧
        drawnHeight fm (selectCardFont fm buf maxW maxH) ≤ maxH)) := by
  cases h8 : fitsFont fm buf maxW maxH 8 with
  | true =>
    constructor
    · intro _
      simp [selectCardFont, chooseCardFont, h8, drawnWidth, drawnHeight,
        fitsFont_spec fm buf maxW maxH 8 h8]
    · intro h0
      simp [chooseCardFont, h8] at h0
  | false =>
  cases h6 : fitsFont fm buf maxW maxH 6 with
  | true =>
    constructor
    · intro _
      simp [selectCardFont, chooseCardFont, h8, h6, drawnWidth, drawnHeight,
        fitsFont_spec fm buf maxW maxH 6 h6]
    · intro h0
      simp [chooseCardFont, h8, h6] at h0
  | false =>
  cases h4 : fitsFont fm buf maxW maxH 4 with
  | true =>
    constructor
    · intro _
      simp [selectCardFont, chooseCardFont, h8, h6, h4, drawnWidth,
        drawnHeight, fitsFont_spec fm buf maxW maxH 4 h4]
    · intro h0
      simp [chooseCardFont, h8, h6, h4] at h0
  | false =>
  cases h2 : fitsFont fm buf maxW maxH 2 with
  | true =>
    constructor
    · intro _
      simp [selectCardFont, chooseCardFont, h8, h6, h4, h2, drawnWidth,
        drawnHeight, fitsFont_spec fm buf maxW maxH 2 h2]
    · intro h0
      simp [chooseCardFont, h8, h6, h4, h2] at h0
  | false =>
    constructor
    · intro h0
      simp [chooseCardFont, h8, h6, h4, h2] at h0
    · intro _
      simp only [selectCardFont, chooseCardFont, h8, h6, h4, h2,
        Bool.false_eq_true, if_false, lt_irrefl, drawnWidth, drawnHeight]
      exact scaled_not_fit fm buf maxW maxH _ (le_max_right _ _) h2

/-- Witness for C3 (amended): with fitting metrics the selected configuration
fits the inner box. -/
theorem card_font_fit_amended_witness :
    drawnWidth fmFits "--" (selectCardFont fmFits "--" 100 100) ≤ 100 ∧
    drawnHeight fmFits (selectCardFont fmFits "--" 100 100) ≤ 100 :=
  (card_font_fit_amended fmFits "--" 100 100).1 (by decide)

/-- C3 counterexample: drawing the unknown-index placeholder on the M5StickC
Plus card box (inner 115 × 115) with metrics under which no candidate fits,
the fallback selection (font 2 clamped to scale 1) yields drawn digits that
exceed the inner box — the claim's fit guarantee fails on the fallback
branch. -/
theorem card_font_fallback_cex :
    ¬(drawnWidth fmClip (cardBuf (-1))
        (selectCardFont fmClip (cardBuf (-1)) 115 115) ≤ 115 ∧
      drawnHeight fmClip
        (selectCardFont fmClip (cardBuf (-1)) 115 115) ≤ 115) := by
  decide

/-- C8: an Input-Sampler enqueue spends zero ticks blocked (returns
immediately), and on a full queue it drops the newly offered message, leaving
the queue contents unchanged. -/
theorem input_enqueue_nonblocking (q : List CmdType) (m : CmdType) :
    (inputSamplerEnqueue q m).2.2 = 0 ∧
    (cmdQueueCapacity ≤ q.length →
      (inputSamplerEnqueue q m).1 = q ∧
      (inputSamplerEnqueue q m).2.1 = false) := by
  unfold inputSamplerEnqueue xQueueSendModel
  by_cases h : q.length < cmdQueueCapacity
  · refine ⟨by simp [h], fun hge => absurd hge (by omega)⟩
  · refine ⟨by simp [h], fun _ => by simp [h]⟩

/-- Witness for C8: offering a poll command to a full 16-element queue leaves
the queue unchanged and reports the drop. -/
theorem input_enqueue_nonblocking_witness :
    (inputSamplerEnqueue (List.replicate 16 CmdType.poll) CmdType.poll).1 =
      List.replicate 16 CmdType.poll ∧
    (inputSamplerEnqueue (List.replicate 16 CmdType.poll) CmdType.poll).2.1 =
      false :=
  (input_enqueue_nonblocking (List.replicate 16 CmdType.poll)
    CmdType.poll).2 (by decide)

/-- A list always leads its own extension by an arbitrary tail. -/
theorem leadsList_append (l r : List Char) : leadsList l (l ++ r) = true := by
  induction l with
  | nil => rfl
  | cons a as ih => simp [leadsList, ih]

/-- The formatted failure status always contains the "Request Failed"
marker. -/
theorem requestFailed_marker (code : Int) :
    containsSub ("Request Failed " ++ toString code) "Request Failed" =
      true := by
  unfold containsSub
  rw [List.any_eq_true]
  refine ⟨("Request Failed " ++ toString code).toList,
    (List.mem_tails _ _).mpr (List.suffix_refl _), ?_⟩
  have hsp : "Request Failed ".data = "Request Failed".data ++ [' '] := by
    decide
  have hd : ("Request Failed " ++ toString code).toList =
      "Request Failed".toList ++ ([' '] ++ (toString code).toList) := by
    simp [String.toList, String.data_append, hsp]
  rw [hd]
  exact leadsList_append _ _

/-- Failure behaviour of one trigger-command body, for any feedback text not
itself containing the "Request Failed" marker. -/
theorem handleTriggerCmd_fail (preMsg okMsg : String) (env : CmdEnv)
    (unreach : Bool) (forced now : Nat)
    (hpre : containsSub preMsg "Request Failed" = false) :
    ((ensureWiFiModel env.wifi).1 = false →
      handleTriggerCmd preMsg okMsg env unreach forced now =
        { unreach := unreach, forced := forced, requests := 0,
          emits := UiMsg.status preMsg :: (ensureWiFiModel env.wifi).2 } ∧
      countRequestFailed
        (handleTriggerCmd preMsg okMsg env unreach forced now).emits = 0) ∧
    ((ensureWiFiModel env.wifi).1 = true →
      (decide (0 < env.code) && decide (env.code = HTTP_CODE_NO_CONTENT))
          = false →
      handleTriggerCmd preMsg okMsg env unreach forced now =
        { unreach := unreach, forced := forced, requests := 1,
          emits := (UiMsg.status preMsg :: (ensureWiFiModel env.wifi).2) ++
            [UiMsg.status ("Request Failed " ++ toString env.code)] } ∧
      countRequestFailed
        (handleTriggerCmd preMsg okMsg env unreach forced now).emits = 1) := by
  obtain ⟨wf, code, p1, p2⟩ := env
  have hRF := requestFailed_marker code
  cases wf with
  | alreadyConnected =>
    refine ⟨fun h1 => absurd h1 (by simp [ensureWiFiModel]),
      fun h1 h2 => ⟨?_, ?_⟩⟩
    · simp [handleTriggerCmd, ensureWiFiModel, h2]
    · simp [handleTriggerCmd, ensureWiFiModel, h2, countRequestFailed,
        List.countP_cons, List.countP_nil, hpre, hRF]
  | connectedAfterAttempt =>
    refine ⟨fun h1 => absurd h1 (by simp [ensureWiFiModel]),
      fun h1 h2 => ⟨?_, ?_⟩⟩
    · simp [handleTriggerCmd, ensureWiFiModel, h2]
    · simp [handleTriggerCmd, ensureWiFiModel, h2, countRequestFailed,
        List.countP_cons, List.countP_nil, hpre, hRF]
  | failedAttempt =>
    refine ⟨fun h1 => ⟨?_, ?_⟩,
      fun h1 h2 => absurd h1 (by simp [ensureWiFiModel])⟩
    · simp [handleTriggerCmd, ensureWiFiModel]
    · simp [handleTriggerCmd, ensureWiFiModel, countRequestFailed,
        List.countP_cons, List.countP_nil, hpre]
  | rateLimited =>
    refine ⟨fun h1 => ⟨?_, ?_⟩,
      fun h1 h2 => absurd h1 (by simp [ensureWiFiModel])⟩
    · simp [handleTriggerCmd, ensureWiFiModel]
    · simp [handleTriggerCmd, ensureWiFiModel, countRequestFailed,
        List.countP_cons, List.countP_nil, hpre]

/-- C9 counterexample: a `CMD_NEXT` handled while the link-establishment
attempt fails emits only the feedback and Wi-Fi announcements — no
"Request Failed" status carrying a code is emitted, contrary to the claim. -/
theorem trigger_wifi_fail_cex :
    handleCmd CmdType.next cexEnv false 0 0 =
      { unreach := false, forced := 0, requests := 0,
        emits := [UiMsg.status "NEXT…", UiMsg.wifi "Wi-Fi…",
          UiMsg.wifi "No Wi-Fi"] } ∧
    countRequestFailed (handleCmd CmdType.next cexEnv false 0 0).emits = 0 := by
  constructor <;> decide

/-- C9 amended: when the link-establishment attempt fails the trigger command
is abandoned with no request, no "Request Failed" status, no retry, no forced
poll and an untouched reachability flag; "Request Failed" with the raw code is
emitted (exactly once, after a single request) only when the link is up and
the request completes without the no-content success status — and then too the
forced-poll schedule and the reachability flag are left unchanged. -/
theorem trigger_failure_amended (c : CmdType) (env : CmdEnv) (unreach : Bool)
    (forced now : Nat)
    (hc : c = CmdType.next ∨ c = CmdType.prev ∨ c = CmdType.home0) :
    ((ensureWiFiModel env.wifi).1 = false →
      handleCmd c env unreach forced now =
        { unreach := unreach, forced := forced, requests := 0,
          emits := UiMsg.status (triggerPre c) ::
            (ensureWiFiModel env.wifi).2 } ∧
      countRequestFailed (handleCmd c env unreach forced now).emits = 0) ∧
    ((ensureWiFiModel env.wifi).1 = true →
      (decide (0 < env.code) && decide (env.code = HTTP_CODE_NO_CONTENT))
          = false →
      handleCmd c env unreach forced now =
        { unreach := unreach, forced := forced, requests := 1,
          emits := (UiMsg.status (triggerPre c) ::
              (ensureWiFiModel env.wifi).2) ++
            [UiMsg.status ("Request Failed " ++ toString env.code)] } ∧
      countRequestFailed (handleCmd c env unreach forced now).emits = 1) := by
  rcases hc with rfl | rfl | rfl <;>
    exact handleTriggerCmd_fail _ _ env unreach forced now (by decide)

/-- Witness for C9 (amended): the failed-link `CMD_NEXT` case, instantiated. -/
theorem trigger_failure_amended_witness :
    handleCmd CmdType.next cexEnv false 0 0 =
      { unreach := false, forced := 0, requests := 0,
        emits := UiMsg.status (triggerPre CmdType.next) ::
          (ensureWiFiModel cexEnv.wifi).2 } ∧
    countRequestFailed (handleCmd CmdType.next cexEnv false 0 0).emits = 0 :=
  (trigger_failure_amended CmdType.next cexEnv false 0 0 (Or.inl rfl)).1
    (by decide)

end ProPresenterRemote
